import Mathlib

/-!
Verification development for the offline-first sync engine of a personal
finance tracker (books and transactions synchronized between a local
SQLite store and a remote Supabase store).

Modelling conventions (shallow embedding of the TypeScript source):
  - ISO-8601 timestamp strings are modelled as natural numbers; the source
    compares them via new Date(..), which agrees with the numeric order.
    The default cursor value "1970-01-01" is modelled as 0, and a missing
    user preference as Option.none.
  - SQLite rows are Lean structures; nullable columns are Option fields.
    The local books and transactions tables are lists of rows together with
    the autoincrement counters for fresh primary keys.
  - Math.random() outcomes are modelled by a stream r of natural numbers:
    Math.floor(Math.random() * 16) becomes r i % 16 and
    (Math.random() * 4) | 8 becomes Nat.lor (r i % 4) 8, which have exactly
    the same set of possible outcomes.
  - The generated sync ids consumed by push operations are modelled by a
    stream gen of strings together with a counter that advances on each
    generateSyncId call, in source order.
  - Remote requests are modelled as always succeeding; the error branches
    of the source only log and skip, which is outside the claims below
    except where a crash state is constructed explicitly.
-/

set_option linter.unusedVariables false
set_option autoImplicit false

/-- Lowercase hexadecimal alphabet used by the uuid generator in the source
(const hex = "0123456789abcdef"). -/
def hexChars : List Char :=
  "0123456789abcdef".data

/-- One character of the generated uuid, following generateSyncId in the
source: hyphens at indices 8, 13, 18, 23, the literal 4 at index 14, a
variant digit hex[(Math.random()*4)|8] at index 19, and hex[floor(random*16)]
elsewhere. The random source is the stream r. -/
def uuidChar (r : Nat → Nat) (i : Nat) : Char :=
  if i = 8 || i = 13 || i = 18 || i = 23 then '-'
  else if i = 14 then '4'
  else if i = 19 then hexChars.getD (Nat.lor (r i % 4) 8) ' '
  else hexChars.getD (r i % 16) ' '

/-- generateSyncId(localId) from the source: builds the 36-character uuid
string character by character. The localId parameter is unused by the
source as well. -/
def generateSyncId (r : Nat → Nat) (localId : Nat) : String :=
  String.mk ((List.range 36).map (uuidChar r))

-- ---------------------------------------------------------------------
-- Local store rows (SQLite schema from createFreshDatabase in the source)
-- ---------------------------------------------------------------------

/-- A row of the local books table:
id INTEGER PRIMARY KEY, name TEXT NOT NULL, created_at TEXT NOT NULL,
updated_at TEXT, synced INTEGER DEFAULT 0, sync_id TEXT UNIQUE,
is_dirty INTEGER DEFAULT 1, deleted INTEGER DEFAULT 0. -/
structure LocalBook where
  id : Nat
  name : String
  created_at : Nat
  updated_at : Option Nat
  synced : Bool
  sync_id : Option String
  is_dirty : Bool
  deleted : Bool
deriving DecidableEq, Repr

/-- The value stored in the local transactions book_id column. It is an
integer foreign key in the schema, but the pull path of the source writes
the remote book uuid (a string) into it, so the column is modelled as a
sum of the two shapes SQLite can end up holding. -/
inductive BookRef where
  | localId (n : Nat)
  | remoteUuid (s : String)
deriving DecidableEq, Repr

/-- A row of the local transactions table (book_id, type, amount, note,
category, created_at, updated_at, synced, sync_id, is_dirty, deleted). -/
structure LocalTx where
  id : Nat
  book_id : BookRef
  type : String
  amount : Int
  note : Option String
  category : Option String
  created_at : Nat
  updated_at : Option Nat
  synced : Bool
  sync_id : Option String
  is_dirty : Bool
  deleted : Bool
deriving DecidableEq, Repr

/-- The local user database: the two tables, the autoincrement counters,
and the two sync cursors held in user_preferences under the keys
last_sync_books and last_sync_transactions. -/
structure LocalDB where
  books : List LocalBook
  txs : List LocalTx
  nextBookId : Nat
  nextTxId : Nat
  lastSyncBooks : Option Nat
  lastSyncTxs : Option Nat
deriving DecidableEq, Repr

-- ---------------------------------------------------------------------
-- Remote rows (Supabase schema from the Database interface in the source)
-- ---------------------------------------------------------------------

/-- A row of the remote books table. -/
structure RemoteBook where
  id : String
  user_id : String
  name : String
  created_at : Nat
  updated_at : Nat
  deleted : Bool
deriving DecidableEq, Repr

/-- A row of the remote transactions table. -/
structure RemoteTx where
  id : String
  user_id : String
  book_id : String
  type : String
  amount : Int
  note : Option String
  category : Option String
  created_at : Nat
  updated_at : Nat
  deleted : Bool
deriving DecidableEq, Repr

/-- The remote store: the two user-visible collections. -/
structure RemoteDB where
  books : List RemoteBook
  txs : List RemoteTx
deriving DecidableEq, Repr

/-- Supabase upsert on books, keyed by the id column: replaces the row with
the same id when present, inserts otherwise. -/
def upsertRemoteBook (remote : RemoteDB) (p : RemoteBook) : RemoteDB :=
  if remote.books.any (fun rb => rb.id = p.id) then
    { remote with books := remote.books.map (fun rb => if rb.id = p.id then p else rb) }
  else
    { remote with books := remote.books ++ [p] }

/-- Supabase upsert on transactions, keyed by the id column. -/
def upsertRemoteTx (remote : RemoteDB) (p : RemoteTx) : RemoteDB :=
  if remote.txs.any (fun rt => rt.id = p.id) then
    { remote with txs := remote.txs.map (fun rt => if rt.id = p.id then p else rt) }
  else
    { remote with txs := remote.txs ++ [p] }

/-- The book_sync_id column produced by
LEFT JOIN books b ON t.book_id = b.id in the push queries: resolves an
integer book_id to the sync_id of the matching local book, and yields null
both for a dangling reference and for a uuid-typed book_id (which never
equals an integer primary key). -/
def bookSyncId (db : LocalDB) (ref : BookRef) : Option String :=
  match ref with
  | .localId n => (db.books.find? (fun b => b.id = n)).bind (fun b => b.sync_id)
  | .remoteUuid _ => none

-- ---------------------------------------------------------------------
-- Conflicts and pull results
-- ---------------------------------------------------------------------

/-- The localData/remoteData snapshots carried by a Conflict, by kind. -/
inductive ConflictPayload where
  | book (localData : LocalBook) (remoteData : RemoteBook)
  | transaction (localData : LocalTx) (remoteData : RemoteTx)
deriving DecidableEq, Repr

/-- The Conflict record produced by pullFromServer in the source: kind plus
snapshots, the local primary key, the remote uuid, and both timestamps. -/
structure Conflict where
  payload : ConflictPayload
  localId : Nat
  remoteId : String
  localUpdated : Nat
  remoteUpdated : Nat
deriving DecidableEq, Repr

/-- PullResult from the source. -/
structure PullResult where
  hasNewData : Bool
  booksCount : Nat
  transactionsCount : Nat
  conflicts : List Conflict
deriving DecidableEq, Repr

namespace SyncService

/-- One remote book of the pulled batch, as merged by pullFromServer:
a local row with the same sync_id is either recorded as a conflict (local
strictly newer) or overwritten (name, updated_at, synced = 1 only); with no
matching local row, a fresh local row is inserted with synced = 1 and the
remaining columns at their schema defaults. -/
def applyRemoteBook (st : LocalDB × List Conflict) (r : RemoteBook) :
    LocalDB × List Conflict :=
  let db := st.1
  let cs := st.2
  match db.books.find? (fun b => b.sync_id = some r.id) with
  | some lb =>
      let localUpdated := lb.updated_at.getD lb.created_at
      if r.updated_at < localUpdated then
        (db, cs ++ [{ payload := .book lb r, localId := lb.id, remoteId := r.id,
                      localUpdated := localUpdated, remoteUpdated := r.updated_at }])
      else
        ({ db with books := db.books.map (fun b =>
            if b.id = lb.id then
              { b with name := r.name, updated_at := some r.updated_at, synced := true }
            else b) }, cs)
  | none =>
      let row : LocalBook :=
        { id := db.nextBookId, name := r.name, created_at := r.created_at,
          updated_at := some r.updated_at, synced := true, sync_id := some r.id,
          is_dirty := true, deleted := false }
      ({ db with books := db.books ++ [row], nextBookId := db.nextBookId + 1 }, cs)

/-- One remote transaction of the pulled batch, as merged by pullFromServer:
conflict when the local row is strictly newer; otherwise overwrite book_id,
type, amount, note, category, updated_at and set synced = 1. A remote
transaction with no local row is inserted only when its remote book uuid
resolves to a local book, with the local integer book id. -/
def applyRemoteTx (st : LocalDB × List Conflict) (r : RemoteTx) :
    LocalDB × List Conflict :=
  let db := st.1
  let cs := st.2
  match db.txs.find? (fun t => t.sync_id = some r.id) with
  | some lt =>
      let localUpdated := lt.updated_at.getD lt.created_at
      if r.updated_at < localUpdated then
        (db, cs ++ [{ payload := .transaction lt r, localId := lt.id, remoteId := r.id,
                      localUpdated := localUpdated, remoteUpdated := r.updated_at }])
      else
        ({ db with txs := db.txs.map (fun t =>
            if t.id = lt.id then
              { t with book_id := BookRef.remoteUuid r.book_id, type := r.type,
                       amount := r.amount, note := r.note, category := r.category,
                       updated_at := some r.updated_at, synced := true }
            else t) }, cs)
  | none =>
      match db.books.find? (fun b => b.sync_id = some r.book_id) with
      | some bk =>
          let row : LocalTx :=
            { id := db.nextTxId, book_id := BookRef.localId bk.id, type := r.type,
              amount := r.amount, note := r.note, category := r.category,
              created_at := r.created_at, updated_at := some r.updated_at,
              synced := true, sync_id := some r.id, is_dirty := true, deleted := false }
          ({ db with txs := db.txs ++ [row], nextTxId := db.nextTxId + 1 }, cs)
      | none => (db, cs)

/-- pullFromServer from the source: fetches the remote rows of this user
with updated_at strictly greater than the stored cursor (default epoch),
merges books then transactions as above, and returns the new local state
with the PullResult. The cursors are not written by this operation. -/
def pullFromServer (userId : String) (db : LocalDB) (remote : RemoteDB) :
    LocalDB × PullResult :=
  let lastBookSync := db.lastSyncBooks.getD 0
  let lastTxSync := db.lastSyncTxs.getD 0
  let remoteBooks := remote.books.filter
    (fun r => r.user_id = userId && lastBookSync < r.updated_at)
  let st1 := remoteBooks.foldl applyRemoteBook (db, [])
  let remoteTxs := remote.txs.filter
    (fun r => r.user_id = userId && lastTxSync < r.updated_at)
  let st2 := remoteTxs.foldl applyRemoteTx st1
  (st2.1,
    { hasNewData := decide (0 < remoteBooks.length) || decide (0 < remoteTxs.length),
      booksCount := remoteBooks.length,
      transactionsCount := remoteTxs.length,
      conflicts := st2.2 })

/-- One conflict applied by resolveConflicts (server-wins): for a book,
name, updated_at, synced = 1 from the remote snapshot; for a transaction,
type, amount, note, category, updated_at, synced = 1. -/
def applyConflict (db : LocalDB) (c : Conflict) : LocalDB :=
  match c.payload with
  | .book _ rd =>
      { db with books := db.books.map (fun b =>
          if b.id = c.localId then
            { b with name := rd.name, updated_at := some rd.updated_at, synced := true }
          else b) }
  | .transaction _ rd =>
      { db with txs := db.txs.map (fun t =>
          if t.id = c.localId then
            { t with type := rd.type, amount := rd.amount, note := rd.note,
                     category := rd.category, updated_at := some rd.updated_at,
                     synced := true }
          else t) }

/-- resolveConflicts from the source: applies every conflict in order. -/
def resolveConflicts (db : LocalDB) (conflicts : List Conflict) : LocalDB :=
  conflicts.foldl applyConflict db

/-- The push state threaded through one pushToServer call: the local
database, the remote store, and the sync id stream counter. -/
structure PushState where
  db : LocalDB
  remote : RemoteDB
  counter : Nat
deriving DecidableEq, Repr

/-- One book of the dirty snapshot processed by pushToServer. With a stored
sync_id the row is upserted remotely (including the deleted flag) and marked
synced = 1 with updated_at = now locally. Without one, a sync id is generated
first, then the dedup query by (user_id, name) runs: on a hit the remote id
is adopted locally with no remote write; otherwise the row is inserted
remotely (including deleted) and the fresh id stored locally. -/
def pushBookStep (userId : String) (now : Nat) (gen : Nat → String)
    (st : PushState) (book : LocalBook) : PushState :=
  match book.sync_id with
  | some sid =>
      let payload : RemoteBook :=
        { id := sid, user_id := userId, name := book.name,
          created_at := book.created_at, updated_at := now, deleted := book.deleted }
      let db := st.db
      { db := { db with books := db.books.map (fun b =>
          if b.id = book.id then { b with synced := true, updated_at := some now }
          else b) },
        remote := upsertRemoteBook st.remote payload,
        counter := st.counter }
  | none =>
      let sid := gen st.counter
      match st.remote.books.find? (fun rb => rb.user_id = userId && rb.name = book.name) with
      | some existing =>
          let db := st.db
          { db := { db with books := db.books.map (fun b =>
              if b.id = book.id then { b with synced := true, sync_id := some existing.id }
              else b) },
            remote := st.remote,
            counter := st.counter + 1 }
      | none =>
          let payload : RemoteBook :=
            { id := sid, user_id := userId, name := book.name,
              created_at := book.created_at, updated_at := now, deleted := book.deleted }
          let db := st.db
          { db := { db with books := db.books.map (fun b =>
              if b.id = book.id then { b with synced := true, sync_id := some sid }
              else b) },
            remote := { st.remote with books := st.remote.books ++ [payload] },
            counter := st.counter + 1 }

/-- One transaction of the dirty snapshot processed by pushToServer,
paired with its joined book_sync_id. A null book_sync_id is skipped
entirely. With a stored sync_id the row is upserted remotely and marked
synced = 1, updated_at = now locally; otherwise a fresh sync id is
generated and the row inserted remotely, then stored locally. -/
def pushTxStep (userId : String) (now : Nat) (gen : Nat → String)
    (st : PushState) (p : LocalTx × Option String) : PushState :=
  match p.2 with
  | none => st
  | some bsid =>
      let t := p.1
      match t.sync_id with
      | some sid =>
          let payload : RemoteTx :=
            { id := sid, user_id := userId, book_id := bsid, type := t.type,
              amount := t.amount, note := t.note, category := t.category,
              created_at := t.created_at, updated_at := now, deleted := t.deleted }
          let db := st.db
          { db := { db with txs := db.txs.map (fun x =>
              if x.id = t.id then { x with synced := true, updated_at := some now }
              else x) },
            remote := upsertRemoteTx st.remote payload,
            counter := st.counter }
      | none =>
          let sid := gen st.counter
          let payload : RemoteTx :=
            { id := sid, user_id := userId, book_id := bsid, type := t.type,
              amount := t.amount, note := t.note, category := t.category,
              created_at := t.created_at, updated_at := now, deleted := t.deleted }
          let db := st.db
          { db := { db with txs := db.txs.map (fun x =>
              if x.id = t.id then { x with synced := true, sync_id := some sid }
              else x) },
            remote := { st.remote with txs := st.remote.txs ++ [payload] },
            counter := st.counter + 1 }

/-- pushToServer from the source: processes the snapshot of books WHERE
synced = 0 OR sync_id IS NULL, then the snapshot of transactions WHERE
t.synced = 0 OR t.sync_id IS NULL with the book_sync_id join taken after
the book phase, and finally writes both cursors to the current time
unconditionally. -/
def pushToServer (userId : String) (db : LocalDB) (remote : RemoteDB)
    (gen : Nat → String) (c : Nat) (now : Nat) : PushState :=
  let unsyncedBooks := db.books.filter (fun b => !b.synced || b.sync_id.isNone)
  let st1 := unsyncedBooks.foldl (pushBookStep userId now gen)
    { db := db, remote := remote, counter := c }
  let db1 := st1.db
  let unsyncedTxs := (db1.txs.filter (fun t => !t.synced || t.sync_id.isNone)).map
    (fun t => (t, bookSyncId db1 t.book_id))
  let st2 := unsyncedTxs.foldl (pushTxStep userId now gen) st1
  { st2 with db := { st2.db with lastSyncBooks := some now, lastSyncTxs := some now } }

/-- The full sync cycle run by the SyncProvider in the source: pull, then
resolveConflicts when the pull reported any conflicts, then push. -/
def syncAllCycle (userId : String) (db : LocalDB) (remote : RemoteDB)
    (gen : Nat → String) (c : Nat) (now : Nat) : PushState × PullResult :=
  let pulled := pullFromServer userId db remote
  let db2 :=
    if 0 < pulled.2.conflicts.length then resolveConflicts pulled.1 pulled.2.conflicts
    else pulled.1
  (pushToServer userId db2 remote gen c now, pulled.2)

/-- One remote book merged by the pull half of syncBooks. On a sync_id hit
only name and synced = 1 are written. Otherwise the source looks a row up
by r.local_id, a column remote rows do not have, so the lookup key is the
fallback -1, which never matches an integer primary key, and a fresh local
row is inserted with name, created_at, synced = 1, sync_id and the
remaining columns at their schema defaults (updated_at stays null). -/
def syncBooksMergeStep (db : LocalDB) (r : RemoteBook) : LocalDB :=
  match db.books.find? (fun b => b.sync_id = some r.id) with
  | some _ =>
      { db with books := db.books.map (fun b =>
          if b.sync_id = some r.id then { b with name := r.name, synced := true }
          else b) }
  | none =>
      match db.books.find? (fun b => (b.id : Int) = -1) with
      | some local_ =>
          { db with books := db.books.map (fun b =>
              if b.id = local_.id then
                { b with name := r.name, synced := true, sync_id := some r.id }
              else b) }
      | none =>
          let row : LocalBook :=
            { id := db.nextBookId, name := r.name, created_at := r.created_at,
              updated_at := none, synced := true, sync_id := some r.id,
              is_dirty := true, deleted := false }
          { db with books := db.books ++ [row], nextBookId := db.nextBookId + 1 }

/-- One book of the dirty snapshot pushed by syncBooks. A row that already
has a sync_id is only marked synced = 1. Otherwise a sync id is generated,
the dedup query by (user_id, name) runs and a hit with a nonempty id is
adopted locally; otherwise the row is inserted remotely (no deleted column
in this insert, so the remote default false applies) and the fresh id
stored locally. -/
def syncBooksPushStep (userId : String) (now : Nat) (gen : Nat → String)
    (st : PushState) (b : LocalBook) : PushState :=
  match b.sync_id with
  | some _ =>
      let db := st.db
      { st with db := { db with books := db.books.map (fun x =>
          if x.id = b.id then { x with synced := true } else x) } }
  | none =>
      let sid := gen st.counter
      let adopt : Option RemoteBook :=
        match st.remote.books.find? (fun rb => rb.user_id = userId && rb.name = b.name) with
        | some e => if e.id = "" then none else some e
        | none => none
      match adopt with
      | some e =>
          let db := st.db
          { db := { db with books := db.books.map (fun x =>
              if x.id = b.id then { x with synced := true, sync_id := some e.id }
              else x) },
            remote := st.remote,
            counter := st.counter + 1 }
      | none =>
          let payload : RemoteBook :=
            { id := sid, user_id := userId, name := b.name,
              created_at := b.created_at, updated_at := now, deleted := false }
          let db := st.db
          { db := { db with books := db.books.map (fun x =>
              if x.id = b.id then { x with synced := true, sync_id := some sid }
              else x) },
            remote := { st.remote with books := st.remote.books ++ [payload] },
            counter := st.counter + 1 }

/-- syncBooks from the source: pull-merge the remote books newer than the
last_sync_books cursor, push the snapshot of books WHERE synced = 0 OR
sync_id IS NULL, then write the cursor to the current time. -/
def syncBooks (userId : String) (db : LocalDB) (remote : RemoteDB)
    (gen : Nat → String) (c : Nat) (now : Nat) : PushState :=
  let lastSync := db.lastSyncBooks.getD 0
  let remoteBooks := remote.books.filter
    (fun r => r.user_id = userId && lastSync < r.updated_at)
  let db1 := remoteBooks.foldl syncBooksMergeStep db
  let unsynced := db1.books.filter (fun b => !b.synced || b.sync_id.isNone)
  let st := unsynced.foldl (syncBooksPushStep userId now gen)
    { db := db1, remote := remote, counter := c }
  { st with db := { st.db with lastSyncBooks := some now } }

/-- One remote transaction merged by the pull half of syncTransactions.
On a sync_id hit the row is overwritten only when the remote timestamp is
strictly newer than updated_at (falling back to created_at); the remote
book uuid is written directly into the local book_id column. Otherwise the
r.local_id fallback lookup never matches and a fresh local row is inserted,
again carrying the remote book uuid as its book_id. -/
def syncTxMergeStep (db : LocalDB) (r : RemoteTx) : LocalDB :=
  match db.txs.find? (fun t => t.sync_id = some r.id) with
  | some lt =>
      if lt.updated_at.getD lt.created_at < r.updated_at then
        { db with txs := db.txs.map (fun t =>
            if t.sync_id = some r.id then
              { t with book_id := BookRef.remoteUuid r.book_id, type := r.type,
                       amount := r.amount, note := r.note, category := r.category,
                       updated_at := some r.updated_at, synced := true }
            else t) }
      else db
  | none =>
      match db.txs.find? (fun t => (t.id : Int) = -1) with
      | some lt =>
          if lt.updated_at.getD lt.created_at < r.updated_at then
            { db with txs := db.txs.map (fun t =>
                if t.id = lt.id then
                  { t with book_id := BookRef.remoteUuid r.book_id, type := r.type,
                           amount := r.amount, note := r.note, category := r.category,
                           updated_at := some r.updated_at, synced := true,
                           sync_id := some r.id }
                else t) }
          else db
      | none =>
          let row : LocalTx :=
            { id := db.nextTxId, book_id := BookRef.remoteUuid r.book_id,
              type := r.type, amount := r.amount, note := r.note,
              category := r.category, created_at := r.created_at,
              updated_at := some r.updated_at, synced := true, sync_id := some r.id,
              is_dirty := true, deleted := false }
          { db with txs := db.txs ++ [row], nextTxId := db.nextTxId + 1 }

/-- One transaction of the dirty snapshot pushed by syncTransactions,
paired with its joined book_sync_id. A null book_sync_id is skipped.
Otherwise a fresh sync id is always generated (the stored sync_id is not
consulted) and the row upserted remotely under the fresh id, then the row
is marked synced = 1 with the fresh sync_id locally. -/
def syncTxPushStep (userId : String) (now : Nat) (gen : Nat → String)
    (st : PushState) (p : LocalTx × Option String) : PushState :=
  match p.2 with
  | none => st
  | some bsid =>
      let t := p.1
      let sid := gen st.counter
      let payload : RemoteTx :=
        { id := sid, user_id := userId, book_id := bsid, type := t.type,
          amount := t.amount, note := t.note, category := t.category,
          created_at := t.created_at, updated_at := now, deleted := false }
      let db := st.db
      { db := { db with txs := db.txs.map (fun x =>
          if x.id = t.id then { x with synced := true, sync_id := some sid }
          else x) },
        remote := upsertRemoteTx st.remote payload,
        counter := st.counter + 1 }

/-- syncTransactions from the source: pull-merge the remote transactions
newer than the last_sync_transactions cursor, push the snapshot of
transactions WHERE t.synced = 0 (joined with book sync ids), then write
the cursor to the current time. -/
def syncTransactions (userId : String) (db : LocalDB) (remote : RemoteDB)
    (gen : Nat → String) (c : Nat) (now : Nat) : PushState :=
  let lastSync := db.lastSyncTxs.getD 0
  let remoteTxs := remote.txs.filter
    (fun r => r.user_id = userId && lastSync < r.updated_at)
  let db1 := remoteTxs.foldl syncTxMergeStep db
  let unsynced := (db1.txs.filter (fun t => !t.synced)).map
    (fun t => (t, bookSyncId db1 t.book_id))
  let st := unsynced.foldl (syncTxPushStep userId now gen)
    { db := db1, remote := remote, counter := c }
  { st with db := { st.db with lastSyncTxs := some now } }

/-- syncAll from the source: throws on a falsy user id, then on a missing
supabase client, before any remote request or local write; otherwise runs
syncBooks then syncTransactions. The error string is returned alongside the
untouched state, so a setup error provably performs no work. -/
def syncAll (userId : String) (client : Option RemoteDB) (db : LocalDB)
    (gen : Nat → String) (c : Nat) (now : Nat) :
    (LocalDB × Option RemoteDB × Nat) × Option String :=
  if userId = "" then ((db, client, c), some "User ID is required")
  else
    match client with
    | none => ((db, none, c), some "Supabase client is required")
    | some remote =>
        let st1 := syncBooks userId db remote gen c now
        let st2 := syncTransactions userId st1.db st1.remote gen st1.counter now
        ((st2.db, some st2.remote, st2.counter), none)

/-- updateTransaction from the SyncService CRUD helpers: binds
type || empty, amount || 0, note || empty, category || empty into
COALESCE(?, column) updates, so the bound values are never null and
COALESCE always picks them; updated_at is set to now and synced to 0.
A missing field and an empty (or zero) field produce the same bound value,
which Option.getD captures exactly. -/
def updateTransaction (db : LocalDB) (txId : Nat)
    (type : Option String) (amount : Option Int)
    (note : Option String) (category : Option String) (now : Nat) : LocalDB :=
  { db with txs := db.txs.map (fun t =>
      if t.id = txId then
        { t with type := type.getD "", amount := amount.getD 0,
                 note := some (note.getD ""), category := some (category.getD ""),
                 updated_at := some now, synced := false }
      else t) }

end SyncService

namespace DatabaseService

/-- createBook from the source: INSERT INTO books (name, created_at,
is_dirty) VALUES (?, ?, 1). Every other column takes its schema default:
updated_at null, synced 0, sync_id null, deleted 0. Returns the new state
together with the inserted row. -/
def createBook (db : LocalDB) (name : String) (now : Nat) : LocalDB × LocalBook :=
  let row : LocalBook :=
    { id := db.nextBookId, name := name, created_at := now, updated_at := none,
      synced := false, sync_id := none, is_dirty := true, deleted := false }
  ({ db with books := db.books ++ [row], nextBookId := db.nextBookId + 1 }, row)

/-- updateBook from the source: UPDATE books SET name = ?, updated_at = ?,
synced = 0 WHERE id = ?. -/
def updateBook (db : LocalDB) (bookId : Nat) (name : String) (now : Nat) : LocalDB :=
  { db with books := db.books.map (fun b =>
      if b.id = bookId then
        { b with name := name, updated_at := some now, synced := false }
      else b) }

/-- deleteBook from the source (soft delete): UPDATE books SET deleted = 1,
synced = 0, updated_at = ? WHERE id = ?, then the same on every transaction
WHERE book_id = ? (an integer comparison, so uuid-typed book_id rows are
untouched). -/
def deleteBook (db : LocalDB) (bookId : Nat) (now : Nat) : LocalDB :=
  { db with
    books := db.books.map (fun b =>
      if b.id = bookId then
        { b with deleted := true, synced := false, updated_at := some now }
      else b),
    txs := db.txs.map (fun t =>
      if t.book_id = BookRef.localId bookId then
        { t with deleted := true, synced := false, updated_at := some now }
      else t) }

/-- addTransaction from the source: INSERT INTO transactions (book_id, type,
amount, note, category, created_at, is_dirty) VALUES (?, ?, ?, ?, ?, ?, 1);
note and category are coerced to strings with an empty default before the
insert. Every other column takes its schema default: updated_at null,
synced 0, sync_id null, deleted 0. -/
def addTransaction (db : LocalDB) (bookId : Nat) (type : String) (amount : Int)
    (note : String) (category : String) (now : Nat) : LocalDB × LocalTx :=
  let row : LocalTx :=
    { id := db.nextTxId, book_id := BookRef.localId bookId, type := type,
      amount := amount, note := some note, category := some category,
      created_at := now, updated_at := none, synced := false, sync_id := none,
      is_dirty := true, deleted := false }
  ({ db with txs := db.txs ++ [row], nextTxId := db.nextTxId + 1 }, row)

/-- updateTransaction from the source (DatabaseService version): UPDATE
transactions SET type = ?, amount = ?, note = ?, category = ?,
updated_at = ?, synced = 0 WHERE id = ?. -/
def updateTransaction (db : LocalDB) (txId : Nat) (type : String) (amount : Int)
    (note : String) (category : String) (now : Nat) : LocalDB :=
  { db with txs := db.txs.map (fun t =>
      if t.id = txId then
        { t with type := type, amount := amount, note := some note,
                 category := some category, updated_at := some now, synced := false }
      else t) }

/-- deleteTransaction from the source (soft delete): UPDATE transactions SET
deleted = 1, synced = 0, updated_at = ? WHERE id = ?. -/
def deleteTransaction (db : LocalDB) (txId : Nat) (now : Nat) : LocalDB :=
  { db with txs := db.txs.map (fun t =>
      if t.id = txId then
        { t with deleted := true, synced := false, updated_at := some now }
      else t) }

end DatabaseService

-- ---------------------------------------------------------------------
-- Shared helper lemmas
-- ---------------------------------------------------------------------

/-- Indexing the underlying character list of the generated uuid. -/
theorem generateSyncId_getD (r : Nat → Nat) (localId : Nat) (i : Nat) (h : i < 36) :
    (generateSyncId r localId).data.getD i ' ' = uuidChar r i := by
  show (((List.range 36).map (uuidChar r)).get? i).getD ' ' = uuidChar r i
  rw [List.get?_map, List.get?_range h]
  rfl

/-- Every index below 16 into the hex alphabet lands in the hex alphabet. -/
theorem hexChars_getD_mem (k : Nat) (h : k < 16) : hexChars.getD k ' ' ∈ hexChars := by
  interval_cases k <;> decide

-- ---------------------------------------------------------------------
-- C9: shape of the generated remote identifier
-- ---------------------------------------------------------------------

/-- Claim C9: for every local id and every outcome of the random source,
generateSyncId returns a 36-character uuid-v4-shaped string: hyphens
exactly at indices 8, 13, 18, 23, the character 4 at index 14, a character
among 8, 9, a, b at index 19, and lowercase hex digits at every other
index. -/
theorem generateSyncId_uuid_shape (r : Nat → Nat) (localId : Nat) :
    (generateSyncId r localId).length = 36 ∧
    (generateSyncId r localId).data.getD 8 ' ' = '-' ∧
    (generateSyncId r localId).data.getD 13 ' ' = '-' ∧
    (generateSyncId r localId).data.getD 18 ' ' = '-' ∧
    (generateSyncId r localId).data.getD 23 ' ' = '-' ∧
    (generateSyncId r localId).data.getD 14 ' ' = '4' ∧
    (generateSyncId r localId).data.getD 19 ' ' ∈ ['8', '9', 'a', 'b'] ∧
    (∀ i, i < 36 → i ≠ 8 → i ≠ 13 → i ≠ 18 → i ≠ 23 → i ≠ 14 → i ≠ 19 →
      (generateSyncId r localId).data.getD i ' ' ∈ hexChars) := by
  refine ⟨?_, ?_, ?_, ?_, ?_, ?_, ?_, ?_⟩
  · show ((List.range 36).map (uuidChar r)).length = 36
    simp
  · rw [generateSyncId_getD r localId 8 (by norm_num)]; rfl
  · rw [generateSyncId_getD r localId 13 (by norm_num)]; rfl
  · rw [generateSyncId_getD r localId 18 (by norm_num)]; rfl
  · rw [generateSyncId_getD r localId 23 (by norm_num)]; rfl
  · rw [generateSyncId_getD r localId 14 (by norm_num)]; rfl
  · rw [generateSyncId_getD r localId 19 (by norm_num)]
    show hexChars.getD (Nat.lor (r 19 % 4) 8) ' ' ∈ ['8', '9', 'a', 'b']
    have h4 : r 19 % 4 < 4 := Nat.mod_lt _ (by norm_num)
    set k := r 19 % 4 with hk
    interval_cases k <;> decide
  · intro i hi h8 h13 h18 h23 h14 h19
    rw [generateSyncId_getD r localId i hi]
    have hchar : uuidChar r i = hexChars.getD (r i % 16) ' ' := by
      unfold uuidChar
      simp [h8, h13, h18, h23, h14, h19]
    rw [hchar]
    exact hexChars_getD_mem _ (Nat.mod_lt _ (by norm_num))

/-- Witness for C9 at a concrete random stream and local id, with the
inner side conditions discharged at index 0. -/
theorem generateSyncId_uuid_shape_witness :
    (generateSyncId (fun k => k) 7).length = 36 ∧
    (generateSyncId (fun k => k) 7).data.getD 0 ' ' ∈ hexChars := by
  refine ⟨(generateSyncId_uuid_shape (fun k => k) 7).1, ?_⟩
  exact (generateSyncId_uuid_shape (fun k => k) 7).2.2.2.2.2.2.2 0 (by decide)
    (by decide) (by decide) (by decide) (by decide) (by decide) (by decide)

-- ---------------------------------------------------------------------
-- C10: COALESCE defaults in SyncService.updateTransaction
-- ---------------------------------------------------------------------

/-- Claim C10: calling SyncService.updateTransaction with omitted fields
does not keep the previous values: the bound defaults (empty string, 0) are
non-null, so COALESCE always chooses them. An omitted field and an
empty-or-zero field write the same value, the row whose id matches ends up
with empty type, note, category and zero amount, synced = 0 and a fresh
updated_at, and a previously nonempty type is genuinely changed. -/
theorem updateTransaction_omitted_fields_overwritten
    (db : LocalDB) (t : LocalTx) (now : Nat) (hmem : t ∈ db.txs) :
    SyncService.updateTransaction db t.id none none none none now =
      SyncService.updateTransaction db t.id (some "") (some 0) (some "") (some "") now ∧
    ∃ t2, t2 ∈ (SyncService.updateTransaction db t.id none none none none now).txs ∧
      t2.id = t.id ∧ t2.type = "" ∧ t2.amount = 0 ∧ t2.note = some "" ∧
      t2.category = some "" ∧ t2.updated_at = some now ∧ t2.synced = false ∧
      (t.type ≠ "" → t2.type ≠ t.type) := by
  constructor
  · rfl
  · refine ⟨{ t with type := "", amount := 0, note := some "", category := some "",
                     updated_at := some now, synced := false }, ?_, ?_⟩
    · show _ ∈ (db.txs.map _)
      have := List.mem_map_of_mem
        (fun u => if u.id = t.id then
          { u with type := (none : Option String).getD "",
                   amount := (none : Option Int).getD 0,
                   note := some ((none : Option String).getD ""),
                   category := some ((none : Option String).getD ""),
                   updated_at := some now, synced := false }
          else u) hmem
      simpa using this
    · refine ⟨rfl, rfl, rfl, rfl, rfl, rfl, rfl, ?_⟩
      intro hne
      simpa using (Ne.symm hne)

/-- Witness for C10 on a concrete one-row store. -/
theorem updateTransaction_omitted_fields_overwritten_witness :
    ∃ t2, t2 ∈ (SyncService.updateTransaction
        { books := [], nextBookId := 1, nextTxId := 2,
          lastSyncBooks := none, lastSyncTxs := none,
          txs := [{ id := 1, book_id := BookRef.localId 1, type := "expense",
                    amount := 50, note := some "n", category := some "food",
                    created_at := 3, updated_at := some 3, synced := false,
                    sync_id := none, is_dirty := true, deleted := false }] }
        1 none none none none 9).txs ∧
      t2.id = 1 ∧ t2.type = "" ∧ t2.amount = 0 ∧ t2.note = some "" ∧
      t2.category = some "" ∧ t2.updated_at = some 9 ∧ t2.synced = false ∧
      ("expense" ≠ "" → t2.type ≠ "expense") := by
  have h := updateTransaction_omitted_fields_overwritten
    { books := [], nextBookId := 1, nextTxId := 2,
      lastSyncBooks := none, lastSyncTxs := none,
      txs := [{ id := 1, book_id := BookRef.localId 1, type := "expense",
                amount := 50, note := some "n", category := some "food",
                created_at := 3, updated_at := some 3, synced := false,
                sync_id := none, is_dirty := true, deleted := false }] }
    { id := 1, book_id := BookRef.localId 1, type := "expense",
      amount := 50, note := some "n", category := some "food",
      created_at := 3, updated_at := some 3, synced := false,
      sync_id := none, is_dirty := true, deleted := false }
    9 (by decide)
  exact h.2

-- ---------------------------------------------------------------------
-- C8: syncAll setup errors
-- ---------------------------------------------------------------------

/-- Claim C8: syncAll with a falsy user id, or with a missing supabase
client, throws immediately with the untouched local state, remote handle
and id counter (so no remote request and no local write happened), while a
call with both present never reports a setup error. -/
theorem syncAll_setup_errors (client : Option RemoteDB) (db : LocalDB)
    (gen : Nat → String) (c : Nat) (now : Nat) (userId : String)
    (remote : RemoteDB) (h : userId ≠ "") :
    SyncService.syncAll "" client db gen c now =
      ((db, client, c), some "User ID is required") ∧
    SyncService.syncAll userId none db gen c now =
      ((db, none, c), some "Supabase client is required") ∧
    (SyncService.syncAll userId (some remote) db gen c now).2 = none := by
  refine ⟨rfl, ?_, ?_⟩
  · unfold SyncService.syncAll
    rw [if_neg h]
  · unfold SyncService.syncAll
    rw [if_neg h]

/-- Witness for C8 at a concrete user id, client and stores. -/
theorem syncAll_setup_errors_witness :
    SyncService.syncAll "" (some { books := [], txs := [] })
      { books := [], txs := [], nextBookId := 1, nextTxId := 1,
        lastSyncBooks := none, lastSyncTxs := none } (fun k => "u") 0 5 =
      (({ books := [], txs := [], nextBookId := 1, nextTxId := 1,
          lastSyncBooks := none, lastSyncTxs := none },
        some { books := [], txs := [] }, 0), some "User ID is required") ∧
    (SyncService.syncAll "user_1" (some { books := [], txs := [] })
      { books := [], txs := [], nextBookId := 1, nextTxId := 1,
        lastSyncBooks := none, lastSyncTxs := none } (fun k => "u") 0 5).2 = none := by
  have h := syncAll_setup_errors (some { books := [], txs := [] })
    { books := [], txs := [], nextBookId := 1, nextTxId := 1,
      lastSyncBooks := none, lastSyncTxs := none } (fun k => "u") 0 5 "user_1"
    { books := [], txs := [] } (by decide)
  exact ⟨h.1, h.2.2⟩

-- ---------------------------------------------------------------------
-- C3: local-wins pairs are returned as conflicts and not applied
-- ---------------------------------------------------------------------

/-- Claim C3: a local record (book or transaction) with the same sync id as
a fetched remote record but a strictly newer timestamp is returned in the
conflicts list of pullFromServer and left untouched; the remote snapshot is
applied only by a subsequent resolveConflicts on that list. -/
theorem pull_local_newer_is_conflict_not_overwritten
    (userId rid lname rname ty rty : String) (cb crb t1 t2 : Nat)
    (am ram : Int) (nt rnt ct rct : Option String) (ldel rdel : Bool)
    (h1 : t1 < t2) (hpos : 0 < t1) :
    (let lb : LocalBook :=
      { id := 1, name := lname, created_at := cb, updated_at := some t2,
        synced := false, sync_id := some rid, is_dirty := true, deleted := ldel }
    let rb : RemoteBook :=
      { id := rid, user_id := userId, name := rname, created_at := crb,
        updated_at := t1, deleted := rdel }
    let db : LocalDB :=
      { books := [lb], txs := [], nextBookId := 2, nextTxId := 1,
        lastSyncBooks := none, lastSyncTxs := none }
    let pulled := SyncService.pullFromServer userId db { books := [rb], txs := [] }
    pulled.2.conflicts =
      [{ payload := .book lb rb, localId := 1, remoteId := rid,
         localUpdated := t2, remoteUpdated := t1 }] ∧
    pulled.1.books = [lb] ∧
    (SyncService.resolveConflicts pulled.1 pulled.2.conflicts).books =
      [{ lb with name := rname, updated_at := some t1, synced := true }]) ∧
    (let lt : LocalTx :=
      { id := 1, book_id := BookRef.localId 1, type := ty, amount := am,
        note := nt, category := ct, created_at := cb, updated_at := some t2,
        synced := false, sync_id := some rid, is_dirty := true, deleted := ldel }
    let rt : RemoteTx :=
      { id := rid, user_id := userId, book_id := "RB", type := rty, amount := ram,
        note := rnt, category := rct, created_at := crb, updated_at := t1,
        deleted := rdel }
    let db : LocalDB :=
      { books := [], txs := [lt], nextBookId := 1, nextTxId := 2,
        lastSyncBooks := none, lastSyncTxs := none }
    let pulled := SyncService.pullFromServer userId db { books := [], txs := [rt] }
    pulled.2.conflicts =
      [{ payload := .transaction lt rt, localId := 1, remoteId := rid,
         localUpdated := t2, remoteUpdated := t1 }] ∧
    pulled.1.txs = [lt] ∧
    (SyncService.resolveConflicts pulled.1 pulled.2.conflicts).txs =
      [{ lt with type := rty, amount := ram, note := rnt, category := rct,
                 updated_at := some t1, synced := true }]) := by
  have hnot : ¬ (t1 < t1) := lt_irrefl t1
  have hlt : t1 < t2 := h1
  constructor
  · simp [SyncService.pullFromServer, SyncService.applyRemoteBook,
      SyncService.resolveConflicts, SyncService.applyConflict,
      decide_eq_true hpos, h1]
  · simp [SyncService.pullFromServer, SyncService.applyRemoteTx,
      SyncService.resolveConflicts, SyncService.applyConflict,
      decide_eq_true hpos, h1]

/-- Witness for C3 at concrete timestamps 2 < 3 and concrete payloads. -/
theorem pull_local_newer_is_conflict_not_overwritten_witness :
    (let lb : LocalBook :=
      { id := 1, name := "a", created_at := 1, updated_at := some 3,
        synced := false, sync_id := some "B", is_dirty := true, deleted := false }
    let rb : RemoteBook :=
      { id := "B", user_id := "u", name := "b", created_at := 1,
        updated_at := 2, deleted := false }
    let db : LocalDB :=
      { books := [lb], txs := [], nextBookId := 2, nextTxId := 1,
        lastSyncBooks := none, lastSyncTxs := none }
    let pulled := SyncService.pullFromServer "u" db { books := [rb], txs := [] }
    pulled.2.conflicts =
      [{ payload := .book lb rb, localId := 1, remoteId := "B",
         localUpdated := 3, remoteUpdated := 2 }] ∧
    pulled.1.books = [lb] ∧
    (SyncService.resolveConflicts pulled.1 pulled.2.conflicts).books =
      [{ lb with name := "b", updated_at := some 2, synced := true }]) ∧
    (let lt : LocalTx :=
      { id := 1, book_id := BookRef.localId 1, type := "income", amount := 4,
        note := none, category := none, created_at := 1, updated_at := some 3,
        synced := false, sync_id := some "B", is_dirty := true, deleted := false }
    let rt : RemoteTx :=
      { id := "B", user_id := "u", book_id := "RB", type := "expense", amount := 6,
        note := none, category := none, created_at := 1, updated_at := 2,
        deleted := false }
    let db : LocalDB :=
      { books := [], txs := [lt], nextBookId := 1, nextTxId := 2,
        lastSyncBooks := none, lastSyncTxs := none }
    let pulled := SyncService.pullFromServer "u" db { books := [], txs := [rt] }
    pulled.2.conflicts =
      [{ payload := .transaction lt rt, localId := 1, remoteId := "B",
         localUpdated := 3, remoteUpdated := 2 }] ∧
    pulled.1.txs = [lt] ∧
    (SyncService.resolveConflicts pulled.1 pulled.2.conflicts).txs =
      [{ lt with type := "expense", amount := 6, note := none, category := none,
                 updated_at := some 2, synced := true }]) :=
  pull_local_newer_is_conflict_not_overwritten "u" "B" "a" "b" "income" "expense"
    1 1 2 3 4 6 none none none none false false (by decide) (by decide)

-- ---------------------------------------------------------------------
-- C1: remote-wins overwrite after a full cycle
-- ---------------------------------------------------------------------

/-- Counterexample to claim C1 as stated: a local book with updated_at 2
and a remote tombstone for the same sync id with updated_at 5. After one
full cycle the local row is overwritten and marked synced, but its deleted
flag is still false while the remote snapshot has deleted true, so the
local fields do not all equal the remote snapshot. -/
theorem remote_wins_full_cycle_counterexample :
    (SyncService.syncAllCycle "u"
        { books := [{ id := 1, name := "Personal", created_at := 1,
                      updated_at := some 2, synced := false, sync_id := some "B",
                      is_dirty := true, deleted := false }],
          txs := [], nextBookId := 2, nextTxId := 1,
          lastSyncBooks := none, lastSyncTxs := none }
        { books := [{ id := "B", user_id := "u", name := "Personal",
                      created_at := 1, updated_at := 5, deleted := true }],
          txs := [] }
        (fun k => "g") 0 9).1.db.books =
      [{ id := 1, name := "Personal", created_at := 1, updated_at := some 5,
         synced := true, sync_id := some "B", is_dirty := true, deleted := false }] ∧
    (false : Bool) ≠ true := by
  constructor
  · rfl
  · decide

/-- Claim C1 amended: given a local record (book or transaction) with sync
id and timestamp t1 strictly older than the matching remote record at t2,
one full cycle overwrites the local payload with the remote snapshot and
clears the dirty flag (synced = 1), for every payload field EXCEPT the
deleted flag, which keeps its local value and never copies the remote one:
for books the copied fields are name and updated_at; for transactions they
are book_id (as the remote uuid), type, amount, note, category and
updated_at. -/
theorem remote_wins_full_cycle_amended
    (userId rid lname rname ty rty rtb : String) (cb crb t1 t2 now : Nat)
    (am ram : Int) (nt rnt ct rct : Option String) (ldel rdel : Bool)
    (gen : Nat → String) (c : Nat)
    (h12 : t1 < t2) (hpos : 0 < t2) :
    (let lb : LocalBook :=
      { id := 1, name := lname, created_at := cb, updated_at := some t1,
        synced := false, sync_id := some rid, is_dirty := true, deleted := ldel }
    let rb : RemoteBook :=
      { id := rid, user_id := userId, name := rname, created_at := crb,
        updated_at := t2, deleted := rdel }
    let db : LocalDB :=
      { books := [lb], txs := [], nextBookId := 2, nextTxId := 1,
        lastSyncBooks := none, lastSyncTxs := none }
    (SyncService.syncAllCycle userId db { books := [rb], txs := [] }
        gen c now).1.db.books =
      [{ lb with name := rname, updated_at := some t2, synced := true }]) ∧
    (let lt : LocalTx :=
      { id := 1, book_id := BookRef.localId 1, type := ty, amount := am,
        note := nt, category := ct, created_at := cb, updated_at := some t1,
        synced := false, sync_id := some rid, is_dirty := true, deleted := ldel }
    let rt : RemoteTx :=
      { id := rid, user_id := userId, book_id := rtb, type := rty, amount := ram,
        note := rnt, category := rct, created_at := crb, updated_at := t2,
        deleted := rdel }
    let db : LocalDB :=
      { books := [], txs := [lt], nextBookId := 1, nextTxId := 2,
        lastSyncBooks := none, lastSyncTxs := none }
    (SyncService.syncAllCycle userId db { books := [], txs := [rt] }
        gen c now).1.db.txs =
      [{ lt with book_id := BookRef.remoteUuid rtb, type := rty, amount := ram,
                 note := rnt, category := rct, updated_at := some t2,
                 synced := true }]) := by
  have hn : ¬ (t2 < t1) := by omega
  constructor
  · simp [SyncService.syncAllCycle, SyncService.pullFromServer,
      SyncService.applyRemoteBook, SyncService.resolveConflicts,
      SyncService.pushToServer, SyncService.pushBookStep, SyncService.pushTxStep,
      decide_eq_true hpos, hn]
  · simp [SyncService.syncAllCycle, SyncService.pullFromServer,
      SyncService.applyRemoteTx, SyncService.resolveConflicts,
      SyncService.pushToServer, SyncService.pushBookStep, SyncService.pushTxStep,
      bookSyncId, decide_eq_true hpos, hn]

/-- Witness for the C1 amended theorem at concrete timestamps 2 < 5. -/
theorem remote_wins_full_cycle_amended_witness :
    (let lb : LocalBook :=
      { id := 1, name := "a", created_at := 1, updated_at := some 2,
        synced := false, sync_id := some "B", is_dirty := true, deleted := false }
    let rb : RemoteBook :=
      { id := "B", user_id := "u", name := "b", created_at := 1,
        updated_at := 5, deleted := true }
    let db : LocalDB :=
      { books := [lb], txs := [], nextBookId := 2, nextTxId := 1,
        lastSyncBooks := none, lastSyncTxs := none }
    (SyncService.syncAllCycle "u" db { books := [rb], txs := [] }
        (fun k => "g") 0 9).1.db.books =
      [{ lb with name := "b", updated_at := some 5, synced := true }]) ∧
    (let lt : LocalTx :=
      { id := 1, book_id := BookRef.localId 1, type := "income", amount := 4,
        note := none, category := none, created_at := 1, updated_at := some 2,
        synced := false, sync_id := some "B", is_dirty := true, deleted := false }
    let rt : RemoteTx :=
      { id := "B", user_id := "u", book_id := "RB", type := "expense", amount := 6,
        note := none, category := none, created_at := 1, updated_at := 5,
        deleted := true }
    let db : LocalDB :=
      { books := [], txs := [lt], nextBookId := 1, nextTxId := 2,
        lastSyncBooks := none, lastSyncTxs := none }
    (SyncService.syncAllCycle "u" db { books := [], txs := [rt] }
        (fun k => "g") 0 9).1.db.txs =
      [{ lt with book_id := BookRef.remoteUuid "RB", type := "expense", amount := 6,
                 note := none, category := none, updated_at := some 5,
                 synced := true }]) :=
  remote_wins_full_cycle_amended "u" "B" "a" "b" "income" "expense" "RB"
    1 1 2 5 9 4 6 none none none none false true (fun k => "g") 0
    (by decide) (by decide)

-- ---------------------------------------------------------------------
-- C2: transactions are never pushed before their book
-- ---------------------------------------------------------------------

/-- Claim C2: a transaction whose joined book sync id is null is skipped by
the push step with no remote write and no local change (first conjunct:
the step is the identity; second: in a full pushToServer run with such a
transaction the remote store is untouched and the row stays dirty). For a
fresh store with one dirty book and one dirty transaction referencing it,
a single pushToServer assigns the book the generated remote id and pushes
the transaction with its remote book reference equal to that same id. -/
theorem pushToServer_ordering_invariant
    (userId bn ty : String) (cb ct2 now : Nat) (am : Int) (nt ct : Option String)
    (gen : Nat → String) (c : Nat) (st : SyncService.PushState) (anyTx : LocalTx)
    (rem : RemoteDB) :
    SyncService.pushTxStep userId now gen st (anyTx, none) = st ∧
    (let t : LocalTx :=
      { id := 1, book_id := BookRef.localId 5, type := ty, amount := am,
        note := nt, category := ct, created_at := ct2, updated_at := none,
        synced := false, sync_id := none, is_dirty := true, deleted := false }
    let db : LocalDB :=
      { books := [], txs := [t], nextBookId := 1, nextTxId := 2,
        lastSyncBooks := none, lastSyncTxs := none }
    (SyncService.pushToServer userId db rem gen c now).remote = rem ∧
    (SyncService.pushToServer userId db rem gen c now).db.txs = [t]) ∧
    (let b : LocalBook :=
      { id := 1, name := bn, created_at := cb, updated_at := none,
        synced := false, sync_id := none, is_dirty := true, deleted := false }
    let t : LocalTx :=
      { id := 1, book_id := BookRef.localId 1, type := ty, amount := am,
        note := nt, category := ct, created_at := ct2, updated_at := none,
        synced := false, sync_id := none, is_dirty := true, deleted := false }
    let db : LocalDB :=
      { books := [b], txs := [t], nextBookId := 2, nextTxId := 2,
        lastSyncBooks := none, lastSyncTxs := none }
    let res := SyncService.pushToServer userId db { books := [], txs := [] } gen c now
    res.db.books = [{ b with synced := true, sync_id := some (gen c) }] ∧
    res.remote.books =
      [{ id := gen c, user_id := userId, name := bn, created_at := cb,
         updated_at := now, deleted := false }] ∧
    res.remote.txs =
      [{ id := gen (c + 1), user_id := userId, book_id := gen c, type := ty,
         amount := am, note := nt, category := ct, created_at := ct2,
         updated_at := now, deleted := false }] ∧
    res.db.txs = [{ t with synced := true, sync_id := some (gen (c + 1)) }]) := by
  refine ⟨rfl, ?_, ?_⟩
  · constructor
    · simp [SyncService.pushToServer, SyncService.pushBookStep,
        SyncService.pushTxStep, bookSyncId]
    · simp [SyncService.pushToServer, SyncService.pushBookStep,
        SyncService.pushTxStep, bookSyncId]
  · refine ⟨?_, ?_, ?_, ?_⟩ <;>
      simp [SyncService.pushToServer, SyncService.pushBookStep,
        SyncService.pushTxStep, bookSyncId]

/-- Witness for C2 at concrete names, amounts and id stream. -/
theorem pushToServer_ordering_invariant_witness :
    (let b : LocalBook :=
      { id := 1, name := "Personal", created_at := 1, updated_at := none,
        synced := false, sync_id := none, is_dirty := true, deleted := false }
    let t : LocalTx :=
      { id := 1, book_id := BookRef.localId 1, type := "expense", amount := 50000,
        note := none, category := none, created_at := 2, updated_at := none,
        synced := false, sync_id := none, is_dirty := true, deleted := false }
    let db : LocalDB :=
      { books := [b], txs := [t], nextBookId := 2, nextTxId := 2,
        lastSyncBooks := none, lastSyncTxs := none }
    let res := SyncService.pushToServer "u" db { books := [], txs := [] }
      (fun k => if k = 0 then "BID" else "TID") 0 9
    res.db.books = [{ b with synced := true, sync_id := some "BID" }] ∧
    res.remote.books =
      [{ id := "BID", user_id := "u", name := "Personal", created_at := 1,
         updated_at := 9, deleted := false }] ∧
    res.remote.txs =
      [{ id := "TID", user_id := "u", book_id := "BID", type := "expense",
         amount := 50000, note := none, category := none, created_at := 2,
         updated_at := 9, deleted := false }] ∧
    res.db.txs = [{ t with synced := true, sync_id := some "TID" }]) :=
  (pushToServer_ordering_invariant "u" "Personal" "expense" 1 2 9 50000 none none
    (fun k => if k = 0 then "BID" else "TID") 0
    ({ db := { books := [], txs := [], nextBookId := 1, nextTxId := 1,
               lastSyncBooks := none, lastSyncTxs := none },
       remote := { books := [], txs := [] },
       counter := 0 } : SyncService.PushState)
    { id := 1, book_id := BookRef.localId 1, type := "x", amount := 0,
      note := none, category := none, created_at := 0, updated_at := none,
      synced := false, sync_id := none, is_dirty := true, deleted := false }
    { books := [], txs := [] }).2.2

-- ---------------------------------------------------------------------
-- C4: idempotency of pushing the same dirty record twice
-- ---------------------------------------------------------------------

/-- Counterexample to claim C4 as stated: a dirty transaction with no
stored sync id (its book already synced under id B). The first push
inserts it remotely under the generated id T1; with the local row left
dirty by a crash, the second push generates the fresh id T2 and inserts a
second remote transaction, so the remote store ends with two records for
the one local transaction, under two different remote ids. -/
theorem push_twice_unsynced_tx_duplicates_counterexample :
    (let db : LocalDB :=
      { books := [{ id := 1, name := "Personal", created_at := 1,
                    updated_at := some 1, synced := true, sync_id := some "B",
                    is_dirty := false, deleted := false }],
        txs := [{ id := 1, book_id := BookRef.localId 1, type := "expense",
                  amount := 7, note := none, category := none, created_at := 2,
                  updated_at := some 2, synced := false, sync_id := none,
                  is_dirty := true, deleted := false }],
        nextBookId := 2, nextTxId := 2, lastSyncBooks := none, lastSyncTxs := none }
    let rem1 := (SyncService.pushToServer "u" db { books := [], txs := [] }
      (fun k => "T1") 0 5).remote
    let res2 := SyncService.pushToServer "u" db rem1 (fun k => "T2") 0 6
    rem1.txs.map (fun p => p.id) = ["T1"] ∧
    res2.remote.txs.map (fun p => p.id) = ["T1", "T2"] ∧
    res2.remote.txs.length = 2 ∧ ("T1" : String) ≠ "T2") := by
  refine ⟨rfl, rfl, rfl, by decide⟩

/-- Claim C4 amended: pushing the same dirty record twice across a crash
(remote write acknowledged, local row still dirty) creates no duplicate
for a book with no stored sync id (the dedup query by user and name adopts
the remote id of the first push) and for a transaction with a stored sync
id (the upsert replaces the remote row under the same id); but a dirty
transaction with no stored sync id is inserted again under a fresh id, as
the counterexample shows, so the claim holds only outside that case. -/
theorem push_twice_idempotent_amended
    (userId bn ty : String) (cb ct2 now1 now2 : Nat) (am : Int)
    (nt ct : Option String) (gen1 gen2 : Nat → String) (c1 c2 : Nat) :
    (let b : LocalBook :=
      { id := 1, name := bn, created_at := cb, updated_at := none,
        synced := false, sync_id := none, is_dirty := true, deleted := false }
    let db : LocalDB :=
      { books := [b], txs := [], nextBookId := 2, nextTxId := 1,
        lastSyncBooks := none, lastSyncTxs := none }
    let rem1 := (SyncService.pushToServer userId db { books := [], txs := [] }
      gen1 c1 now1).remote
    let res2 := SyncService.pushToServer userId db rem1 gen2 c2 now2
    rem1.books.map (fun p => p.id) = [gen1 c1] ∧
    res2.remote.books.map (fun p => p.id) = [gen1 c1] ∧
    res2.db.books = [{ b with synced := true, sync_id := some (gen1 c1) }]) ∧
    (let t : LocalTx :=
      { id := 1, book_id := BookRef.localId 1, type := ty, amount := am,
        note := nt, category := ct, created_at := ct2, updated_at := some ct2,
        synced := false, sync_id := some "T", is_dirty := true, deleted := false }
    let db : LocalDB :=
      { books := [{ id := 1, name := bn, created_at := cb, updated_at := some cb,
                    synced := true, sync_id := some "B", is_dirty := false,
                    deleted := false }],
        txs := [t], nextBookId := 2, nextTxId := 2,
        lastSyncBooks := none, lastSyncTxs := none }
    let rem1 := (SyncService.pushToServer userId db { books := [], txs := [] }
      gen1 c1 now1).remote
    let res2 := SyncService.pushToServer userId db rem1 gen2 c2 now2
    rem1.txs.map (fun p => p.id) = ["T"] ∧
    res2.remote.txs.map (fun p => p.id) = ["T"] ∧
    res2.remote.txs.length = 1) := by
  constructor
  · refine ⟨?_, ?_, ?_⟩ <;>
      simp [SyncService.pushToServer, SyncService.pushBookStep,
        SyncService.pushTxStep, bookSyncId, upsertRemoteTx]
  · refine ⟨?_, ?_, ?_⟩ <;>
      simp [SyncService.pushToServer, SyncService.pushBookStep,
        SyncService.pushTxStep, bookSyncId, upsertRemoteTx]

/-- Witness for the C4 amended theorem at concrete values. -/
theorem push_twice_idempotent_amended_witness :
    (let b : LocalBook :=
      { id := 1, name := "Personal", created_at := 1, updated_at := none,
        synced := false, sync_id := none, is_dirty := true, deleted := false }
    let db : LocalDB :=
      { books := [b], txs := [], nextBookId := 2, nextTxId := 1,
        lastSyncBooks := none, lastSyncTxs := none }
    let rem1 := (SyncService.pushToServer "u" db { books := [], txs := [] }
      (fun k => "B1") 0 5).remote
    let res2 := SyncService.pushToServer "u" db rem1 (fun k => "B2") 0 6
    rem1.books.map (fun p => p.id) = ["B1"] ∧
    res2.remote.books.map (fun p => p.id) = ["B1"] ∧
    res2.db.books = [{ b with synced := true, sync_id := some "B1" }]) ∧
    (let t : LocalTx :=
      { id := 1, book_id := BookRef.localId 1, type := "expense", amount := 7,
        note := none, category := none, created_at := 2, updated_at := some 2,
        synced := false, sync_id := some "T", is_dirty := true, deleted := false }
    let db : LocalDB :=
      { books := [{ id := 1, name := "Personal", created_at := 1,
                    updated_at := some 1, synced := true, sync_id := some "B",
                    is_dirty := false, deleted := false }],
        txs := [t], nextBookId := 2, nextTxId := 2,
        lastSyncBooks := none, lastSyncTxs := none }
    let rem1 := (SyncService.pushToServer "u" db { books := [], txs := [] }
      (fun k => "X1") 0 5).remote
    let res2 := SyncService.pushToServer "u" db rem1 (fun k => "X2") 0 6
    rem1.txs.map (fun p => p.id) = ["T"] ∧
    res2.remote.txs.map (fun p => p.id) = ["T"] ∧
    res2.remote.txs.length = 1) :=
  push_twice_idempotent_amended "u" "Personal" "expense" 1 2 5 6 7 none none
    (fun k => "B1") (fun k => "B2") 0 0 |>.imp id
    (fun h => push_twice_idempotent_amended "u" "Personal" "expense" 1 2 5 6 7
      none none (fun k => "X1") (fun k => "X2") 0 0 |>.2)

-- ---------------------------------------------------------------------
-- C5: tombstone propagation
-- ---------------------------------------------------------------------

/-- Counterexample to claim C5 as stated: a remote tombstone (deleted true,
updated_at 5) for a book that is not deleted locally (updated_at 2). The
pull takes the overwrite branch but writes only name, updated_at and
synced, so the local row still has deleted false afterwards instead of the
claimed deleted true. -/
theorem pull_tombstone_not_applied_counterexample :
    (let db : LocalDB :=
      { books := [{ id := 1, name := "Personal", created_at := 1,
                    updated_at := some 2, synced := true, sync_id := some "B",
                    is_dirty := false, deleted := false }],
        txs := [], nextBookId := 2, nextTxId := 1,
        lastSyncBooks := none, lastSyncTxs := none }
    let rem : RemoteDB :=
      { books := [{ id := "B", user_id := "u", name := "Personal",
                    created_at := 1, updated_at := 5, deleted := true }],
        txs := [] }
    let pulled := SyncService.pullFromServer "u" db rem
    pulled.1.books.map (fun b => b.deleted) = [false] ∧
    rem.books.map (fun rb => rb.deleted) = [true] ∧
    pulled.2.conflicts = [] ∧
    pulled.1.books.map (fun b => b.synced) = [true]) := by
  refine ⟨rfl, rfl, rfl, rfl⟩

/-- Claim C5 amended: soft-deleting a local book sets deleted = 1,
synced = 0 and a fresh updated_at on the book and on each of its
transactions; a subsequent pushToServer then sends deleted = true for the
book and those transactions (here for rows that carry a sync id, hence the
upsert path); but a pull that fetches a remote tombstone for a record not
deleted locally does NOT set the local deleted flag: pullFromServer never
copies the remote deleted column, so the local row stays undeleted. -/
theorem tombstone_propagation_amended
    (userId bn ty rname : String) (cb ct2 t1 t2 now1 now2 : Nat) (am : Int)
    (nt ct : Option String) (gen : Nat → String) (c : Nat)
    (h12 : t1 < t2) (hpos : 0 < t2) :
    (let b : LocalBook :=
      { id := 1, name := bn, created_at := cb, updated_at := some cb,
        synced := true, sync_id := some "B", is_dirty := false, deleted := false }
    let t : LocalTx :=
      { id := 1, book_id := BookRef.localId 1, type := ty, amount := am,
        note := nt, category := ct, created_at := ct2, updated_at := some ct2,
        synced := true, sync_id := some "T", is_dirty := false, deleted := false }
    let db : LocalDB :=
      { books := [b], txs := [t], nextBookId := 2, nextTxId := 2,
        lastSyncBooks := none, lastSyncTxs := none }
    let db1 := DatabaseService.deleteBook db 1 now1
    let res := SyncService.pushToServer userId db1 { books := [], txs := [] }
      gen c now2
    db1.books = [{ b with deleted := true, synced := false,
                          updated_at := some now1 }] ∧
    db1.txs = [{ t with deleted := true, synced := false,
                        updated_at := some now1 }] ∧
    res.remote.books =
      [{ id := "B", user_id := userId, name := bn, created_at := cb,
         updated_at := now2, deleted := true }] ∧
    res.remote.txs =
      [{ id := "T", user_id := userId, book_id := "B", type := ty, amount := am,
         note := nt, category := ct, created_at := ct2, updated_at := now2,
         deleted := true }]) ∧
    (let lb : LocalBook :=
      { id := 1, name := bn, created_at := cb, updated_at := some t1,
        synced := true, sync_id := some "B", is_dirty := false, deleted := false }
    let db : LocalDB :=
      { books := [lb], txs := [], nextBookId := 2, nextTxId := 1,
        lastSyncBooks := none, lastSyncTxs := none }
    let rem : RemoteDB :=
      { books := [{ id := "B", user_id := userId, name := rname,
                    created_at := cb, updated_at := t2, deleted := true }],
        txs := [] }
    (SyncService.pullFromServer userId db rem).1.books =
      [{ lb with name := rname, updated_at := some t2, synced := true }]) := by
  have hn : ¬ (t2 < t1) := by omega
  constructor
  · refine ⟨?_, ?_, ?_, ?_⟩ <;>
      simp [DatabaseService.deleteBook, SyncService.pushToServer,
        SyncService.pushBookStep, SyncService.pushTxStep, bookSyncId,
        upsertRemoteBook, upsertRemoteTx]
  · simp [SyncService.pullFromServer, SyncService.applyRemoteBook,
      decide_eq_true hpos, hn]

/-- Witness for the C5 amended theorem at concrete values. -/
theorem tombstone_propagation_amended_witness :
    (let b : LocalBook :=
      { id := 1, name := "Personal", created_at := 1, updated_at := some 1,
        synced := true, sync_id := some "B", is_dirty := false, deleted := false }
    let t : LocalTx :=
      { id := 1, book_id := BookRef.localId 1, type := "expense", amount := 7,
        note := none, category := none, created_at := 2, updated_at := some 2,
        synced := true, sync_id := some "T", is_dirty := false, deleted := false }
    let db : LocalDB :=
      { books := [b], txs := [t], nextBookId := 2, nextTxId := 2,
        lastSyncBooks := none, lastSyncTxs := none }
    let db1 := DatabaseService.deleteBook db 1 8
    let res := SyncService.pushToServer "u" db1 { books := [], txs := [] }
      (fun k => "g") 0 9
    db1.books = [{ b with deleted := true, synced := false,
                          updated_at := some 8 }] ∧
    db1.txs = [{ t with deleted := true, synced := false,
                        updated_at := some 8 }] ∧
    res.remote.books =
      [{ id := "B", user_id := "u", name := "Personal", created_at := 1,
         updated_at := 9, deleted := true }] ∧
    res.remote.txs =
      [{ id := "T", user_id := "u", book_id := "B", type := "expense", amount := 7,
         note := none, category := none, created_at := 2, updated_at := 9,
         deleted := true }]) ∧
    (let lb : LocalBook :=
      { id := 1, name := "Personal", created_at := 1, updated_at := some 2,
        synced := true, sync_id := some "B", is_dirty := false, deleted := false }
    let db : LocalDB :=
      { books := [lb], txs := [], nextBookId := 2, nextTxId := 1,
        lastSyncBooks := none, lastSyncTxs := none }
    let rem : RemoteDB :=
      { books := [{ id := "B", user_id := "u", name := "Pro",
                    created_at := 1, updated_at := 5, deleted := true }],
        txs := [] }
    (SyncService.pullFromServer "u" db rem).1.books =
      [{ lb with name := "Pro", updated_at := some 5, synced := true }]) :=
  tombstone_propagation_amended "u" "Personal" "expense" "Pro" 1 2 2 5 8 9 7
    none none (fun k => "g") 0 (by decide) (by decide)

-- ---------------------------------------------------------------------
-- C6: cursor behavior
-- ---------------------------------------------------------------------

/-- Merging one remote book during a pull never touches either cursor. -/
theorem applyRemoteBook_preserves_cursors (st : LocalDB × List Conflict)
    (r : RemoteBook) :
    (SyncService.applyRemoteBook st r).1.lastSyncBooks = st.1.lastSyncBooks ∧
    (SyncService.applyRemoteBook st r).1.lastSyncTxs = st.1.lastSyncTxs := by
  rcases hf : st.1.books.find? (fun b => b.sync_id = some r.id) with _ | lb <;>
    simp only [SyncService.applyRemoteBook, hf] <;> (try split) <;> simp

/-- Merging one remote transaction during a pull never touches either
cursor. -/
theorem applyRemoteTx_preserves_cursors (st : LocalDB × List Conflict)
    (r : RemoteTx) :
    (SyncService.applyRemoteTx st r).1.lastSyncBooks = st.1.lastSyncBooks ∧
    (SyncService.applyRemoteTx st r).1.lastSyncTxs = st.1.lastSyncTxs := by
  rcases hf : st.1.txs.find? (fun t => t.sync_id = some r.id) with _ | lt
  · rcases hb : st.1.books.find? (fun b => b.sync_id = some r.book_id) with _ | bk <;>
      simp [SyncService.applyRemoteTx, hf, hb]
  · simp only [SyncService.applyRemoteTx, hf] <;> (try split) <;> simp

/-- Folding the book merge over any pulled batch never touches a cursor. -/
theorem foldl_applyRemoteBook_preserves_cursors (l : List RemoteBook) :
    ∀ st : LocalDB × List Conflict,
    (l.foldl SyncService.applyRemoteBook st).1.lastSyncBooks = st.1.lastSyncBooks ∧
    (l.foldl SyncService.applyRemoteBook st).1.lastSyncTxs = st.1.lastSyncTxs := by
  induction l with
  | nil => intro st; exact ⟨rfl, rfl⟩
  | cons r tl ih =>
      intro st
      have h1 := applyRemoteBook_preserves_cursors st r
      have h2 := ih (SyncService.applyRemoteBook st r)
      exact ⟨h2.1.trans h1.1, h2.2.trans h1.2⟩

/-- Folding the transaction merge over any pulled batch never touches a
cursor. -/
theorem foldl_applyRemoteTx_preserves_cursors (l : List RemoteTx) :
    ∀ st : LocalDB × List Conflict,
    (l.foldl SyncService.applyRemoteTx st).1.lastSyncBooks = st.1.lastSyncBooks ∧
    (l.foldl SyncService.applyRemoteTx st).1.lastSyncTxs = st.1.lastSyncTxs := by
  induction l with
  | nil => intro st; exact ⟨rfl, rfl⟩
  | cons r tl ih =>
      intro st
      have h1 := applyRemoteTx_preserves_cursors st r
      have h2 := ih (SyncService.applyRemoteTx st r)
      exact ⟨h2.1.trans h1.1, h2.2.trans h1.2⟩

/-- Counterexample to claim C6 as stated: with both cursors at 5, an empty
remote store and current time 7, the pull fetches nothing (hasNewData
false), yet after the full cycle the push phase has advanced the books
cursor to 7, so a pull with no new remote data does not leave the cursor
unchanged. -/
theorem cursor_advanced_without_fetch_counterexample :
    (let db : LocalDB :=
      { books := [], txs := [], nextBookId := 1, nextTxId := 1,
        lastSyncBooks := some 5, lastSyncTxs := some 5 }
    let res := SyncService.syncAllCycle "u" db { books := [], txs := [] }
      (fun k => "g") 0 7
    res.2.hasNewData = false ∧ res.2.conflicts = [] ∧
    res.1.db.lastSyncBooks = some 7 ∧ res.1.db.lastSyncBooks ≠ some 5) := by
  refine ⟨rfl, rfl, rfl, by decide⟩

/-- Claim C6 amended: pullFromServer itself never modifies either cursor;
both cursors are set to the current time unconditionally at the end of
every pushToServer (and syncBooks and syncTransactions each set their
cursor likewise), whether or not anything was fetched or pushed; under a
monotone clock (current time at least the stored cursor) the cursor
therefore never decreases across cycles. -/
theorem cursor_behavior_amended (userId : String) (db : LocalDB)
    (remote : RemoteDB) (gen : Nat → String) (c : Nat) (now : Nat)
    (hb : db.lastSyncBooks.getD 0 ≤ now) (ht : db.lastSyncTxs.getD 0 ≤ now) :
    (SyncService.pullFromServer userId db remote).1.lastSyncBooks =
      db.lastSyncBooks ∧
    (SyncService.pullFromServer userId db remote).1.lastSyncTxs =
      db.lastSyncTxs ∧
    (SyncService.syncAllCycle userId db remote gen c now).1.db.lastSyncBooks =
      some now ∧
    (SyncService.syncAllCycle userId db remote gen c now).1.db.lastSyncTxs =
      some now ∧
    (SyncService.syncBooks userId db remote gen c now).db.lastSyncBooks =
      some now ∧
    (SyncService.syncTransactions userId db remote gen c now).db.lastSyncTxs =
      some now ∧
    db.lastSyncBooks.getD 0 ≤
      ((SyncService.syncAllCycle userId db remote gen c now).1.db.lastSyncBooks).getD 0 ∧
    db.lastSyncTxs.getD 0 ≤
      ((SyncService.syncAllCycle userId db remote gen c now).1.db.lastSyncTxs).getD 0 := by
  have hpullB :
      (SyncService.pullFromServer userId db remote).1.lastSyncBooks =
        db.lastSyncBooks := by
    unfold SyncService.pullFromServer
    have h1 := foldl_applyRemoteTx_preserves_cursors
      (remote.txs.filter (fun r => r.user_id = userId && db.lastSyncTxs.getD 0 < r.updated_at))
      ((remote.books.filter (fun r => r.user_id = userId && db.lastSyncBooks.getD 0 < r.updated_at)).foldl
        SyncService.applyRemoteBook (db, []))
    have h2 := foldl_applyRemoteBook_preserves_cursors
      (remote.books.filter (fun r => r.user_id = userId && db.lastSyncBooks.getD 0 < r.updated_at))
      (db, [])
    exact h1.1.trans h2.1
  have hpullT :
      (SyncService.pullFromServer userId db remote).1.lastSyncTxs =
        db.lastSyncTxs := by
    unfold SyncService.pullFromServer
    have h1 := foldl_applyRemoteTx_preserves_cursors
      (remote.txs.filter (fun r => r.user_id = userId && db.lastSyncTxs.getD 0 < r.updated_at))
      ((remote.books.filter (fun r => r.user_id = userId && db.lastSyncBooks.getD 0 < r.updated_at)).foldl
        SyncService.applyRemoteBook (db, []))
    have h2 := foldl_applyRemoteBook_preserves_cursors
      (remote.books.filter (fun r => r.user_id = userId && db.lastSyncBooks.getD 0 < r.updated_at))
      (db, [])
    exact h1.2.trans h2.2
  refine ⟨hpullB, hpullT, rfl, rfl, rfl, rfl, ?_, ?_⟩
  · simpa using hb
  · simpa using ht

/-- Witness for the C6 amended theorem at a concrete state with cursors
at 5 and current time 7. -/
theorem cursor_behavior_amended_witness :
    (let db : LocalDB :=
      { books := [], txs := [], nextBookId := 1, nextTxId := 1,
        lastSyncBooks := some 5, lastSyncTxs := some 5 }
    let rem : RemoteDB := { books := [], txs := [] }
    (SyncService.pullFromServer "u" db rem).1.lastSyncBooks = some 5 ∧
    (SyncService.syncAllCycle "u" db rem (fun k => "g") 0 7).1.db.lastSyncBooks =
      some 7 ∧
    (5 : Nat) ≤
      ((SyncService.syncAllCycle "u" db rem (fun k => "g") 0 7).1.db.lastSyncBooks).getD 0) := by
  have h := cursor_behavior_amended "u"
    { books := [], txs := [], nextBookId := 1, nextTxId := 1,
      lastSyncBooks := some 5, lastSyncTxs := some 5 }
    { books := [], txs := [] } (fun k => "g") 0 7 (by decide) (by decide)
  exact ⟨h.1, h.2.2.1, h.2.2.2.2.2.2.1⟩

-- ---------------------------------------------------------------------
-- C7: every local mutation sets dirty and refreshes updated_at
-- ---------------------------------------------------------------------

/-- Counterexample to claim C7 as stated: createBook and addTransaction
insert with only name, created_at and is_dirty (plus payload columns), so
the stored row has updated_at null instead of the claimed mutation
timestamp. -/
theorem create_leaves_updated_at_null_counterexample :
    (DatabaseService.createBook
      { books := [], txs := [], nextBookId := 1, nextTxId := 1,
        lastSyncBooks := none, lastSyncTxs := none } "Personal" 5).2.updated_at
        = none ∧
    (DatabaseService.addTransaction
      { books := [], txs := [], nextBookId := 1, nextTxId := 1,
        lastSyncBooks := none, lastSyncTxs := none }
      1 "expense" 7 "" "food" 5).2.updated_at = none ∧
    (none : Option Nat) ≠ some 5 := by
  refine ⟨rfl, rfl, by decide⟩

/-- Claim C7 amended: every DatabaseService mutation leaves the record
dirty, and the update and soft-delete operations (updateBook,
updateTransaction, deleteBook, deleteTransaction) also refresh updated_at
to the mutation time; but the create operations (createBook,
addTransaction) leave updated_at null (unset) while still inserting the
row dirty (synced = 0 by schema default and is_dirty = 1 explicitly). -/
theorem mutations_dirty_updated_at_amended
    (db : LocalDB) (bn bn2 ty ty2 n2 c2 : String) (cb ct2 now : Nat)
    (am am2 : Int) (nt ct : Option String) :
    (let created := DatabaseService.createBook db bn now
    created.2.synced = false ∧ created.2.is_dirty = true ∧
    created.2.updated_at = none ∧ created.2 ∈ created.1.books) ∧
    (let added := DatabaseService.addTransaction db 1 ty am bn2 c2 now
    added.2.synced = false ∧ added.2.is_dirty = true ∧
    added.2.updated_at = none ∧ added.2 ∈ added.1.txs) ∧
    (let b : LocalBook :=
      { id := 1, name := bn, created_at := cb, updated_at := some cb,
        synced := true, sync_id := some "B", is_dirty := false, deleted := false }
    let t : LocalTx :=
      { id := 1, book_id := BookRef.localId 1, type := ty, amount := am,
        note := nt, category := ct, created_at := ct2, updated_at := some ct2,
        synced := true, sync_id := some "T", is_dirty := false, deleted := false }
    let db1 : LocalDB :=
      { books := [b], txs := [t], nextBookId := 2, nextTxId := 2,
        lastSyncBooks := none, lastSyncTxs := none }
    (DatabaseService.updateBook db1 1 bn2 now).books =
      [{ b with name := bn2, updated_at := some now, synced := false }] ∧
    (DatabaseService.updateTransaction db1 1 ty2 am2 n2 c2 now).txs =
      [{ t with type := ty2, amount := am2, note := some n2,
                category := some c2, updated_at := some now, synced := false }] ∧
    (DatabaseService.deleteBook db1 1 now).books =
      [{ b with deleted := true, synced := false, updated_at := some now }] ∧
    (DatabaseService.deleteBook db1 1 now).txs =
      [{ t with deleted := true, synced := false, updated_at := some now }] ∧
    (DatabaseService.deleteTransaction db1 1 now).txs =
      [{ t with deleted := true, synced := false, updated_at := some now }]) := by
  refine ⟨⟨rfl, rfl, rfl, ?_⟩, ⟨rfl, rfl, rfl, ?_⟩, ?_⟩
  · simp [DatabaseService.createBook]
  · simp [DatabaseService.addTransaction]
  · refine ⟨?_, ?_, ?_, ?_, ?_⟩ <;>
      simp [DatabaseService.updateBook, DatabaseService.updateTransaction,
        DatabaseService.deleteBook, DatabaseService.deleteTransaction]

/-- Witness for the C7 amended theorem at concrete values. -/
theorem mutations_dirty_updated_at_amended_witness :
    (let created := DatabaseService.createBook
      { books := [], txs := [], nextBookId := 1, nextTxId := 1,
        lastSyncBooks := none, lastSyncTxs := none } "Personal" 9
    created.2.synced = false ∧ created.2.is_dirty = true ∧
    created.2.updated_at = none ∧ created.2 ∈ created.1.books) ∧
    (let added := DatabaseService.addTransaction
      { books := [], txs := [], nextBookId := 1, nextTxId := 1,
        lastSyncBooks := none, lastSyncTxs := none } 1 "expense" 7 "Pro" "food" 9
    added.2.synced = false ∧ added.2.is_dirty = true ∧
    added.2.updated_at = none ∧ added.2 ∈ added.1.txs) := by
  have h := mutations_dirty_updated_at_amended
    { books := [], txs := [], nextBookId := 1, nextTxId := 1,
      lastSyncBooks := none, lastSyncTxs := none }
    "Personal" "Pro" "expense" "income" "n" "food" 1 2 9 7 8 none none
  exact ⟨h.1, h.2.1⟩
